import Mathlib

/-!
# Verification of the brain-score benchmarking notebook

A shallow embedding of `examples/benchmarks.ipynb`: the mock brain model
`RandomITModel`, the custom benchmark `MyBenchmark`, and the external
brain-score / brainio collaborators they invoke.  Code present in the
notebook is translated directly; external-library operations (regression
metric, ceiling estimator, normalization, stimulus placement, numpy RNG)
are modelled from the specification's design-level description and marked
`Modelled from the spec:` in their doc comments.

Numeric data is embedded as `ℚ`.  Standard-error aggregation is embedded
as the squared standard error (variance of the mean), which keeps all
definitions executable over `ℚ` (no irrational square roots); determinism
and monotonicity statements are unaffected by this squaring.
-/

/-- The behavioral tasks of the `BrainModel` interface.  The notebook only
ever names `BrainModel.Task.passive`; every other behavioral mode of the
interface is represented by its name. -/
inductive BrainModel.Task where
  | passive
  | other (name : String)
deriving DecidableEq, Repr

/-- A stimulus set: ordered stimulus identifiers with category labels and
physical sizes (visual degrees). -/
structure StimulusSet where
  image_id : List String
  object_name : List String
  degrees : List ℚ
deriving DecidableEq, Repr, Inhabited

/-- Number of stimuli, `len(stimuli)` in the notebook. -/
def StimulusSet.len (s : StimulusSet) : Nat := s.image_id.length

/-- A three-dimensional response assembly over
(presentation × neuroid × time_bin), as produced by
`RandomITModel.look_at`: data plus presentation coordinates (`image_id`,
`object_name`), neuroid coordinates (`neuroid_id`, `region`) and time-bin
coordinates (`time_bin_start`, `time_bin_end`). -/
structure DataAssembly where
  data : List (List (List ℚ))
  image_id : List String
  object_name : List String
  neuroid_id : List Nat
  region : List String
  time_bin_start : List (Option Int)
  time_bin_end : List (Option Int)
  name : String
deriving DecidableEq, Repr, Inhabited

/-- A two-dimensional (presentation × neuroid) assembly, as obtained after
`squeeze('time_bin')`; the reference assembly of `MyBenchmark` carries a
`stimulus_set` in its attributes, model predictions do not. -/
structure NeuralAssembly where
  data : List (List ℚ)
  image_id : List String
  object_name : List String
  region : List String
  stimulus_set : Option StimulusSet
deriving DecidableEq, Repr, Inhabited

/-- A Score: aggregate center and error, the raw per-split per-channel
value matrix, and optional `raw` / `ceiling` provenance sub-scores. -/
inductive Score where
  | mk (center : ℚ) (error : ℚ) (rawValues : List (List ℚ))
       (rawAttr : Option Score) (ceilingAttr : Option Score)

/-- Aggregate center of a score. -/
def Score.center : Score → ℚ
  | .mk c _ _ _ _ => c

/-- Aggregate error of a score. -/
def Score.error : Score → ℚ
  | .mk _ e _ _ _ => e

/-- Raw per-split per-channel values of a score. -/
def Score.rawValues : Score → List (List ℚ)
  | .mk _ _ r _ _ => r

/-- The `raw` provenance attribute of a score. -/
def Score.rawAttr : Score → Option Score
  | .mk _ _ _ r _ => r

/-- The `ceiling` provenance attribute of a score. -/
def Score.ceilingAttr : Score → Option Score
  | .mk _ _ _ _ c => c

/-! ## Elementary statistics over ℚ -/

/-- Arithmetic mean of a list of rationals (0 on the empty list, since
`x / 0 = 0` in `ℚ`). -/
def mean (xs : List ℚ) : ℚ := xs.sum / (xs.length : ℚ)

/-- Squared standard error of the mean: the sample variance divided by the
sample size.  Embeds the notebook's standard-error aggregation without
irrational square roots. -/
def sqSem (xs : List ℚ) : ℚ :=
  ((xs.map (fun x => (x - mean xs) ^ 2)).sum / (xs.length : ℚ)) / (xs.length : ℚ)

/-- Covariance of two equally long lists: mean of products minus product
of means. -/
def covariance (xs ys : List ℚ) : ℚ :=
  mean (List.zipWith (fun a b => a * b) xs ys) - mean xs * mean ys

/-! ## The mock brain model `RandomITModel` -/

/-- Mutable state of a `RandomITModel` instance: the recorded time window,
`None` until `start_recording` configures it (`__init__` sets
`_time_bin_start = _time_bin_end = None`). -/
structure RandomITModel where
  time_bin_start : Option Int
  time_bin_end : Option Int
deriving DecidableEq, Repr

namespace RandomITModel

/-- Fresh instance, `RandomITModel()`: no time window configured. -/
def init : RandomITModel := { time_bin_start := none, time_bin_end := none }

/-- The constant `self._num_neurons = 50`, set in `__init__` and never
reassigned. -/
def num_neurons : Nat := 50

/-- Modelled from the spec: `np.random.RandomState(seed)` pseudo-random
values in `[0, 1)` — an external numpy collaborator, embedded as a fixed
deterministic stream keyed by the seed (a linear congruential step). -/
def npRand (seed i : Nat) : ℚ :=
  ((1103515245 * (seed + i) + 12345) % 2 ^ 31 : Nat) / (2 ^ 31 : ℚ)

/-- Method `RandomITModel.look_at`: builds a `DataAssembly` of
`RandomState(0).rand(len(stimuli), 50, 1)` values over
(presentation × neuroid × time_bin), with the presentation coordinates
taken from the stimuli, neuroid ids `0..49`, every region `'IT'`, and the
single time bin labeled with the configured window.  The instance state is
returned unchanged (the method only reads it). -/
def look_at (m : RandomITModel) (stimuli : StimulusSet) :
    DataAssembly × RandomITModel :=
  ({ data := (List.range stimuli.len).map (fun i =>
        (List.range num_neurons).map (fun j => [npRand 0 (i * num_neurons + j)])),
     image_id := stimuli.image_id,
     object_name := stimuli.object_name,
     neuroid_id := List.range num_neurons,
     region := List.replicate num_neurons "IT",
     time_bin_start := [m.time_bin_start],
     time_bin_end := [m.time_bin_end],
     name := "random_it_model" }, m)

/-- Method `RandomITModel.start_task`: raises `NotImplementedError` unless the
task is `BrainModel.Task.passive`; otherwise leaves the instance
unchanged. -/
def start_task (m : RandomITModel) (task : BrainModel.Task) :
    Except String RandomITModel :=
  if task = BrainModel.Task.passive then .ok m
  else .error "NotImplementedError"

/-- Method `RandomITModel.start_recording`: raises unless the target is `"IT"`
and exactly one time bin is given; on success stores the bin's start and
end in the instance state. -/
def start_recording (m : RandomITModel) (recording_target : String)
    (time_bins : List (Int × Int)) : Except String RandomITModel :=
  if recording_target ≠ "IT" then
    .error "NotImplementedError: RandomITModel only supports IT"
  else if time_bins.length ≠ 1 then
    .error "NotImplementedError: RandomITModel only supports a single start-end time-bin"
  else
    match time_bins with
    | (tbStart, tbEnd) :: _ =>
        .ok { m with time_bin_start := some tbStart, time_bin_end := some tbEnd }
    | [] => .error "IndexError"

/-- Method `RandomITModel.visual_degrees`: declares a field of view of 8
degrees. -/
def visual_degrees (_ : RandomITModel) : ℚ := 8

end RandomITModel

/-! ## External brain-score collaborators, modelled from the spec -/

/-- Modelled from the spec: `place_on_screen`
(`brainscore.benchmarks.screen`) is an external collaborator that adjusts
stimulus physical size by the ratio of reference-experiment to candidate
field of view. -/
def place_on_screen (stimulus_set : StimulusSet) (target_visual_degrees : ℚ)
    (source_visual_degrees : ℚ) : StimulusSet :=
  { stimulus_set with
    degrees := stimulus_set.degrees.map
      (fun d => d * source_visual_degrees / target_visual_degrees) }

/-- The operation `squeeze('time_bin')`: drop the (length-one) time-bin dimension of a
three-dimensional assembly, keeping presentation and neuroid coordinates. -/
def squeezeTimeBin (a : DataAssembly) : NeuralAssembly :=
  { data := a.data.map (fun row => row.map (fun cell => cell.headD 0)),
    image_id := a.image_id,
    object_name := a.object_name,
    region := a.region,
    stimulus_set := none }

/-- The rows (presentations) of an assembly measured for one stimulus:
repetitions of that stimulus. -/
def NeuralAssembly.rowsForImage (a : NeuralAssembly) (img : String) :
    List (List ℚ) :=
  ((a.image_id.zip a.data).filter (fun p => p.1 == img)).map (fun p => p.2)

/-- The category label recorded with the first presentation of a
stimulus. -/
def NeuralAssembly.objectNameFor (a : NeuralAssembly) (img : String) : String :=
  (((a.image_id.zip a.object_name).filter (fun p => p.1 == img)).map
    (fun p => p.2)).headD ""

/-- Number of response channels (neuroids) of an assembly. -/
def NeuralAssembly.numChannels (a : NeuralAssembly) : Nat := a.region.length

/-- The distinct stimulus identifiers of a presentation coordinate, in
order of first appearance (`np.unique` up to ordering). -/
def dedup : List String → List String
  | [] => []
  | x :: xs => x :: (dedup xs).filter (fun y => y != x)

/-- Modelled from the spec: `average_repetition`
(`brainscore.benchmarks._neural_common`) is an external collaborator that
averages the reference assembly over repetitions — one output presentation
per distinct stimulus, each channel value the mean over that stimulus's
repetitions; a derived copy, the input is untouched. -/
def average_repetition (a : NeuralAssembly) : NeuralAssembly :=
  let imgs := dedup a.image_id
  { data := imgs.map (fun img =>
      (List.range a.numChannels).map (fun c =>
        mean ((a.rowsForImage img).map (fun r => r.getD c 0)))),
    image_id := imgs,
    object_name := imgs.map (fun img => a.objectNameFor img),
    region := a.region,
    stimulus_set := a.stimulus_set }

/-- Deterministic stratified cross-validation test partition: the
presentations assigned to split `k` out of `splits`, keyed by the seed. -/
def testRows (seed splits n k : Nat) : List Nat :=
  (List.range n).filter (fun i => (i + seed) % splits == k)

/-- The values of channel `c` at the given presentations. -/
def NeuralAssembly.channelVec (a : NeuralAssembly) (rows : List Nat)
    (c : Nat) : List ℚ :=
  rows.map (fun i => (a.data.getD i []).getD c 0)

/-- Modelled from the spec: one held-out-split, one-channel comparison of
predicted against measured responses — the external regression +
correlation kernel, embedded as the covariance of the two channel traces
over the split's test presentations. -/
def splitChannelScore (seed splits : Nat) (predictions assembly : NeuralAssembly)
    (k c : Nat) : ℚ :=
  let rows := testRows seed splits assembly.data.length k
  covariance (predictions.channelVec rows c) (assembly.channelVec rows c)

/-- Modelled from the spec: `CrossRegressedCorrelation`
(`brainscore.metrics.regression`) is an external collaborator — the
similarity metric splits the reference assembly into train/test
partitions, fits a regression from predicted to measured responses,
correlates on held-out test data, and aggregates center (mean across
splits and channels) and error (standard error of the mean, embedded
squared); `raw` holds the per-split per-channel matrix. -/
def CrossRegressedCorrelation (splits seed : Nat)
    (predictions assembly : NeuralAssembly) : Score :=
  let rawMatrix := (List.range splits).map (fun k =>
    (List.range assembly.numChannels).map (fun c =>
      splitChannelScore seed splits predictions assembly k c))
  let flat := rawMatrix.flatten
  Score.mk (mean flat) (sqSem flat) rawMatrix none none

/-- Mean channel values of one half of a stimulus's repetitions (the
first or the second half of its rows). -/
def halfMeanVec (a : NeuralAssembly) (c : Nat) (first : Bool) : List ℚ :=
  (dedup a.image_id).map (fun img =>
    let rows := a.rowsForImage img
    let half := if first then rows.take (rows.length / 2)
                else rows.drop (rows.length / 2)
    mean (half.map (fun r => r.getD c 0)))

/-- Modelled from the spec: `InternalConsistency`
(`brainscore.metrics.ceiling`) is an external collaborator — the ceiling
estimator compares repeated measurements of the reference data alone
(split-half consistency: repetitions split into two halves, each half
averaged per stimulus, the halves compared per channel, embedded as the
covariance of the two half-mean traces), aggregating with the same
center/error discipline as the similarity metric. -/
def InternalConsistency (a : NeuralAssembly) : Score :=
  let perNeuroid := (List.range a.numChannels).map (fun c =>
    covariance (halfMeanVec a c true) (halfMeanVec a c false))
  Score.mk (mean perNeuroid) (sqSem perNeuroid) [perNeuroid] none none

/-- Modelled from the spec: `explained_variance`
(`brainscore.benchmarks._neural_common`) is an external collaborator that
normalizes the unceiled score by the ceiling via explained-variance
division, attaching `raw` and `ceiling` as provenance. -/
def explained_variance (raw ceiling : Score) : Score :=
  Score.mk (raw.center / ceiling.center) (raw.error / ceiling.center)
    [] (some raw) (some ceiling)

/-! ## The custom benchmark `MyBenchmark` -/

/-- The events of one benchmark invocation that touch the candidate, in
the order they are issued. -/
inductive Event where
  | startTaskEv
  | startRecordingEv
  | visualDegreesEv
  | lookAtEv
deriving DecidableEq, Repr

/-- The duck-typed `BrainModel` capability set, as a record of the four
operations over a candidate-specific state type `σ`: task control,
recording control, stimulus viewing and visual-field metadata. -/
structure Candidate (σ : Type) where
  start_task : σ → BrainModel.Task → Except String σ
  start_recording : σ → String → List (Int × Int) → Except String σ
  look_at : σ → StimulusSet → DataAssembly × σ
  visual_degrees : σ → ℚ

/-- The mock model `RandomITModel` packaged as a `Candidate` over its own
state. -/
def RandomITModel.candidate : Candidate RandomITModel :=
  { start_task := RandomITModel.start_task,
    start_recording := RandomITModel.start_recording,
    look_at := RandomITModel.look_at,
    visual_degrees := RandomITModel.visual_degrees }

/-- State of a `MyBenchmark` instance.  `__init__` stores the loaded,
filtered, time-bin-squeezed reference assembly (with its stimulus set
attached) in `self._assembly`; the similarity metric and the ceiler are
the fixed functions `CrossRegressedCorrelation 3 0` and
`InternalConsistency`.  No other instance field exists — in particular
there is no ceiling cache. -/
structure MyBenchmark where
  assembly : NeuralAssembly
deriving DecidableEq, Repr

namespace MyBenchmark

/-- Constructor `MyBenchmark.__init__`, given the already-downloaded reference
assembly: stores it once; it is never reassigned afterwards. -/
def mk' (assembly : NeuralAssembly) : MyBenchmark := { assembly := assembly }

/-- The property `MyBenchmark.identifier`. -/
def identifier (_ : MyBenchmark) : String := "my-dummy-benchmark"

/-- The field `MyBenchmark._similarity_metric`: `CrossRegressedCorrelation` with
`splits=3` (seed 0). -/
def similarity_metric (predictions assembly : NeuralAssembly) : Score :=
  CrossRegressedCorrelation 3 0 predictions assembly

/-- One access of the `MyBenchmark.ceiling` property: the body is
`return self._ceiler(self._assembly)`, so each access invokes the ceiling
estimator once on the stored assembly and leaves the instance unchanged.
The returned `Nat` counts the estimator invocations of this access. -/
def ceilingAccess (b : MyBenchmark) : Score × MyBenchmark × Nat :=
  (InternalConsistency b.assembly, b, 1)

/-- Performs `k` successive accesses of the `ceiling` property on the same
instance, threading the instance state; returns the final state and the
total number of ceiling-estimator invocations. -/
def ceilingAccessRepeat (b : MyBenchmark) : Nat → MyBenchmark × Nat
  | 0 => (b, 0)
  | k + 1 =>
      let a := b.ceilingAccess
      let rest := ceilingAccessRepeat a.2.1 k
      (rest.1, a.2.2 + rest.2)

/-- Method `MyBenchmark.__call__(candidate)`: (1) configure the candidate
(`start_task(passive)`, `start_recording("IT", [(100, 120)])`), place the
benchmark's stimuli on the candidate's screen (8 source degrees) and
collect its predictions; (2) squeeze the predictions' time bin and score
them against the repetition-averaged reference assembly with the
similarity metric; (3) normalize by the ceiling.  An error from the
candidate propagates immediately.  Returns the result, the benchmark
state after the call, and the trace of candidate-facing events. -/
def call {σ : Type} (b : MyBenchmark) (c : Candidate σ) (s : σ) :
    Except String (Score × σ) × MyBenchmark × List Event :=
  match c.start_task s BrainModel.Task.passive with
  | .error e => (.error e, b, [.startTaskEv])
  | .ok s1 =>
    match c.start_recording s1 "IT" [((100 : Int), (120 : Int))] with
    | .error e => (.error e, b, [.startTaskEv, .startRecordingEv])
    | .ok s2 =>
      let stimulus_set := place_on_screen (b.assembly.stimulus_set.getD default)
        (c.visual_degrees s2) 8
      let pr := c.look_at s2 stimulus_set
      let assembly := average_repetition b.assembly
      let predictions := squeezeTimeBin pr.1
      let unceiled_score := similarity_metric predictions assembly
      let ceiled_score := explained_variance unceiled_score
        (b.ceilingAccess.1)
      (.ok (ceiled_score, pr.2), b,
        [.startTaskEv, .startRecordingEv, .visualDegreesEv, .lookAtEv])

end MyBenchmark

/-- The stimulus set `MyBenchmark.__call__` shows the candidate: the
benchmark's stimuli placed on the candidate's screen, with 8 reference
degrees. -/
def MyBenchmark.placed_stimuli {σ : Type} (b : MyBenchmark) (c : Candidate σ)
    (s2 : σ) : StimulusSet :=
  place_on_screen (b.assembly.stimulus_set.getD default) (c.visual_degrees s2) 8

/-- The unceiled score of `MyBenchmark.__call__`: the similarity metric
applied to the candidate's (time-bin-squeezed) predictions and the
repetition-averaged reference assembly. -/
def MyBenchmark.unceiled_of {σ : Type} (b : MyBenchmark) (c : Candidate σ)
    (s2 : σ) : Score :=
  MyBenchmark.similarity_metric
    (squeezeTimeBin (c.look_at s2 (b.placed_stimuli c s2)).1)
    (average_repetition b.assembly)

/-- Append one more repetition of a stimulus to a reference assembly: one
more presentation row carrying that stimulus's identifier and label. -/
def NeuralAssembly.addRepetition (a : NeuralAssembly) (img obj : String)
    (row : List ℚ) : NeuralAssembly :=
  { a with
    data := a.data ++ [row],
    image_id := a.image_id ++ [img],
    object_name := a.object_name ++ [obj] }

/-! ## Concrete data used by witnesses and counterexamples -/

/-- A small concrete stimulus set: two stimuli with category labels and
2-degree sizes. -/
def demoStimuli : StimulusSet :=
  { image_id := ["img0", "img1"],
    object_name := ["dog", "cat"],
    degrees := [2, 2] }

/-- A small concrete reference assembly: two stimuli, two repetitions
each (presentation rows img0, img0, img1, img1), two neuroids, with
`demoStimuli` attached. -/
def demoAssembly : NeuralAssembly :=
  { data := [[1, 2], [3, 4], [5, 6], [7, 8]],
    image_id := ["img0", "img0", "img1", "img1"],
    object_name := ["dog", "dog", "cat", "cat"],
    region := ["IT", "IT"],
    stimulus_set := some demoStimuli }

/-- A concrete benchmark instance over `demoAssembly`. -/
def demoBenchmark : MyBenchmark := MyBenchmark.mk' demoAssembly

/-- A concrete candidate whose `start_task` always fails (a model that
implements no behavioral task). -/
def alwaysFailingCandidate : Candidate Unit :=
  { start_task := fun _ _ => .error "UnsupportedTaskError",
    start_recording := fun s _ _ => .ok s,
    look_at := fun s _ => (default, s),
    visual_degrees := fun _ => 8 }

/-- A concrete score with nonzero center. -/
def demoScore : Score := Score.mk (1 / 2) (1 / 100) [[1 / 2]] none none

/-- A reference assembly with two stimuli (two repetitions each) and two
neuroids whose ceiling error is 0. -/
def c7BaseA : NeuralAssembly :=
  { data := [[1, 1], [1, 1], [0, 0], [0, 0]],
    image_id := ["A", "A", "B", "B"],
    object_name := ["x", "x", "y", "y"],
    region := ["IT", "IT"],
    stimulus_set := none }

/-- A reference assembly with two stimuli (two repetitions each) and two
neuroids whose ceiling error is positive. -/
def c7BaseB : NeuralAssembly :=
  { data := [[1, 1], [1, 1], [0, 0], [4, 0]],
    image_id := ["A", "A", "B", "B"],
    object_name := ["x", "x", "y", "y"],
    region := ["IT", "IT"],
    stimulus_set := none }

/-- The assembly `c7BaseA` with one more (outlier) repetition of stimulus
`"B"`. -/
def c7MoreA : NeuralAssembly := c7BaseA.addRepetition "B" "y" [4, 0]

/-- The assembly `c7BaseB` with one more repetition of stimulus `"B"`. -/
def c7MoreB : NeuralAssembly := c7BaseB.addRepetition "B" "y" [0, 0]

/-! ## Claims -/

/-- C4: `RandomITModel.start_recording` raises an error if and only if
the recording target is unsupported (not `"IT"`) or the time-bin count is
unsupported (not exactly one bin); on success it configures the adapter's
recorded time window to the single provided (start, end) bin. -/
theorem c4_start_recording_errors_iff (m : RandomITModel) (target : String)
    (time_bins : List (Int × Int)) :
    ((∃ e, m.start_recording target time_bins = .error e) ↔
      (target ≠ "IT" ∨ time_bins.length ≠ 1)) ∧
    (∀ tbStart tbEnd, target = "IT" → time_bins = [(tbStart, tbEnd)] →
      m.start_recording target time_bins =
        .ok { m with time_bin_start := some tbStart, time_bin_end := some tbEnd }) := by
  constructor
  · constructor
    · rintro ⟨e, he⟩
      by_contra hcon
      push_neg at hcon
      rcases hcon with ⟨hT, hL⟩
      rcases time_bins with _ | ⟨⟨a, b⟩, rest⟩
      · simp at hL
      · rcases rest with _ | ⟨y, rest⟩
        · simp [RandomITModel.start_recording, hT] at he
        · simp at hL
    · intro h
      by_cases hT : target = "IT"
      · rcases h with h | hL
        · exact absurd hT h
        · subst hT
          exact ⟨"NotImplementedError: RandomITModel only supports a single start-end time-bin",
            by simp [RandomITModel.start_recording, hL]⟩
      · exact ⟨"NotImplementedError: RandomITModel only supports IT",
          by simp [RandomITModel.start_recording, hT]⟩
  · intro tbStart tbEnd hT hBins
    subst hT; subst hBins
    simp [RandomITModel.start_recording]

/-- Witness for C4 at concrete inputs: recording from `"V4"` errors,
recording two bins errors, and recording `("IT", [(100, 120)])` succeeds
and stores the window (100, 120). -/
theorem c4_start_recording_witness :
    (∃ e, RandomITModel.init.start_recording "V4" [((100 : Int), (120 : Int))] = .error e) ∧
    (∃ e, RandomITModel.init.start_recording "IT"
        [((100 : Int), (120 : Int)), ((120 : Int), (140 : Int))] = .error e) ∧
    RandomITModel.init.start_recording "IT" [((100 : Int), (120 : Int))] =
      .ok { time_bin_start := some 100, time_bin_end := some 120 } := by
  refine ⟨?_, ?_, ?_⟩
  · exact (c4_start_recording_errors_iff RandomITModel.init "V4"
      [((100 : Int), (120 : Int))]).1.mpr (Or.inl (by decide))
  · exact (c4_start_recording_errors_iff RandomITModel.init "IT"
      [((100 : Int), (120 : Int)), ((120 : Int), (140 : Int))]).1.mpr
      (Or.inr (by decide))
  · exact (c4_start_recording_errors_iff RandomITModel.init "IT"
      [((100 : Int), (120 : Int))]).2 100 120 rfl rfl

/-- C8: `look_at` is a pure function of the adapter's configuration and
the stimuli: calling it twice in succession on equal stimulus sets yields
equal response assemblies (labeled with the configured time window), and
each call leaves the adapter's state unchanged. -/
theorem c8_look_at_pure (m : RandomITModel) (stimuli stimuli2 : StimulusSet)
    (h : stimuli = stimuli2) :
    (m.look_at stimuli).1 = (((m.look_at stimuli).2).look_at stimuli2).1 ∧
    (m.look_at stimuli).2 = m ∧
    (((m.look_at stimuli).2).look_at stimuli2).2 = m ∧
    (m.look_at stimuli).1.time_bin_start = [m.time_bin_start] ∧
    (m.look_at stimuli).1.time_bin_end = [m.time_bin_end] := by
  subst h
  exact ⟨rfl, rfl, rfl, rfl, rfl⟩

/-- Witness for C8: two successive `look_at` calls of a fresh model on
the concrete `demoStimuli` agree and leave the state unchanged. -/
theorem c8_look_at_pure_witness :
    (RandomITModel.init.look_at demoStimuli).1 =
      (((RandomITModel.init.look_at demoStimuli).2).look_at demoStimuli).1 ∧
    (RandomITModel.init.look_at demoStimuli).2 = RandomITModel.init :=
  ⟨(c8_look_at_pure RandomITModel.init demoStimuli demoStimuli rfl).1,
   (c8_look_at_pure RandomITModel.init demoStimuli demoStimuli rfl).2.1⟩

/-- C10: `look_at` always returns an assembly of shape
(`len(stimuli)`, 50, 1) over (presentation, neuroid, time_bin), every
neuroid labeled region `"IT"`, the single time bin labeled with the
configured (start, end); on a fresh model the labels are (None, None). -/
theorem c10_look_at_shape (m : RandomITModel) (stimuli : StimulusSet) :
    (m.look_at stimuli).1.data.length = stimuli.len ∧
    (∀ row ∈ (m.look_at stimuli).1.data, row.length = 50 ∧
      ∀ cell ∈ row, cell.length = 1) ∧
    (m.look_at stimuli).1.region = List.replicate 50 "IT" ∧
    (∀ r ∈ (m.look_at stimuli).1.region, r = "IT") ∧
    (m.look_at stimuli).1.time_bin_start = [m.time_bin_start] ∧
    (m.look_at stimuli).1.time_bin_end = [m.time_bin_end] ∧
    (RandomITModel.init.look_at stimuli).1.time_bin_start = [none] ∧
    (RandomITModel.init.look_at stimuli).1.time_bin_end = [none] := by
  refine ⟨?_, ?_, rfl, ?_, rfl, rfl, rfl, rfl⟩
  · simp [RandomITModel.look_at]
  · intro row hrow
    simp only [RandomITModel.look_at, List.mem_map] at hrow
    obtain ⟨i, _, hi⟩ := hrow
    subst hi
    constructor
    · simp [RandomITModel.num_neurons]
    · intro cell hcell
      simp only [List.mem_map] at hcell
      obtain ⟨j, _, hj⟩ := hcell
      subst hj
      rfl
  · intro r hr
    simp only [RandomITModel.look_at] at hr
    exact (List.eq_of_mem_replicate hr)

/-- Witness for C10: a fresh model looking at the concrete `demoStimuli`. -/
theorem c10_look_at_shape_witness :
    (RandomITModel.init.look_at demoStimuli).1.data.length = demoStimuli.len ∧
    (∀ row ∈ (RandomITModel.init.look_at demoStimuli).1.data, row.length = 50 ∧
      ∀ cell ∈ row, cell.length = 1) ∧
    (RandomITModel.init.look_at demoStimuli).1.region = List.replicate 50 "IT" ∧
    (∀ r ∈ (RandomITModel.init.look_at demoStimuli).1.region, r = "IT") ∧
    (RandomITModel.init.look_at demoStimuli).1.time_bin_start =
      [RandomITModel.init.time_bin_start] ∧
    (RandomITModel.init.look_at demoStimuli).1.time_bin_end =
      [RandomITModel.init.time_bin_end] ∧
    (RandomITModel.init.look_at demoStimuli).1.time_bin_start = [none] ∧
    (RandomITModel.init.look_at demoStimuli).1.time_bin_end = [none] :=
  c10_look_at_shape RandomITModel.init demoStimuli

/-- C1: for every candidate implementing the model-adapter contract (and
accepting the benchmark's task and recording configuration),
`MyBenchmark.__call__` returns `explained_variance(unceiled, ceiling)`
where `unceiled` is the similarity metric applied to the candidate's
predictions and the repetition-averaged reference assembly
(`average_repetition(self._assembly)`), and the returned score carries
the unceiled score as `raw` and the ceiling score as `ceiling`
provenance. -/
theorem c1_call_is_ceiled_similarity {σ : Type} (b : MyBenchmark)
    (c : Candidate σ) (s s1 s2 : σ)
    (h1 : c.start_task s BrainModel.Task.passive = .ok s1)
    (h2 : c.start_recording s1 "IT" [((100 : Int), (120 : Int))] = .ok s2) :
    ∃ score,
      (b.call c s).1 = .ok (score, (c.look_at s2 (b.placed_stimuli c s2)).2) ∧
      score = explained_variance (b.unceiled_of c s2) (InternalConsistency b.assembly) ∧
      score.rawAttr = some (b.unceiled_of c s2) ∧
      score.ceilingAttr = some (InternalConsistency b.assembly) := by
  refine ⟨explained_variance (b.unceiled_of c s2) (InternalConsistency b.assembly),
    ?_, rfl, rfl, rfl⟩
  simp only [MyBenchmark.call, h1, h2]
  rfl

/-- Witness for C1: `MyBenchmark` over the concrete `demoAssembly`,
called on a fresh `RandomITModel`, which accepts the passive task and the
(IT, [(100, 120)]) recording configuration. -/
theorem c1_call_is_ceiled_similarity_witness :
    ∃ score,
      (demoBenchmark.call RandomITModel.candidate RandomITModel.init).1 =
        .ok (score,
          (RandomITModel.candidate.look_at
            { time_bin_start := some 100, time_bin_end := some 120 }
            (demoBenchmark.placed_stimuli RandomITModel.candidate
              { time_bin_start := some 100, time_bin_end := some 120 })).2) ∧
      score = explained_variance
          (demoBenchmark.unceiled_of RandomITModel.candidate
            { time_bin_start := some 100, time_bin_end := some 120 })
          (InternalConsistency demoBenchmark.assembly) ∧
      score.rawAttr = some (demoBenchmark.unceiled_of RandomITModel.candidate
            { time_bin_start := some 100, time_bin_end := some 120 }) ∧
      score.ceilingAttr = some (InternalConsistency demoBenchmark.assembly) :=
  c1_call_is_ceiled_similarity demoBenchmark RandomITModel.candidate
    RandomITModel.init RandomITModel.init
    { time_bin_start := some 100, time_bin_end := some 120 } rfl rfl

/-- C2: a `RandomITModel` rejects every task other than the passive task
with an error, and whenever any candidate's `start_task` errors,
`MyBenchmark.__call__` propagates that error with no `look_at` event in
its trace — no stimulus is ever shown to the candidate. -/
theorem c2_error_before_stimulus (m : RandomITModel) (task : BrainModel.Task)
    (htask : task ≠ BrainModel.Task.passive)
    (σ : Type) (c : Candidate σ) (s : σ) (b : MyBenchmark) (e : String)
    (herr : c.start_task s BrainModel.Task.passive = .error e) :
    (∃ e2, m.start_task task = .error e2) ∧
    (b.call c s).1 = .error e ∧
    Event.lookAtEv ∉ (b.call c s).2.2 := by
  refine ⟨⟨"NotImplementedError", ?_⟩, ?_, ?_⟩
  · simp [RandomITModel.start_task, htask]
  · simp only [MyBenchmark.call, herr]
  · simp only [MyBenchmark.call, herr]
    decide

/-- Witness for C2: a fresh `RandomITModel` rejects the task named
`"fixation"`, and calling the demo benchmark on a candidate that rejects
every task raises without any `look_at` event. -/
theorem c2_error_before_stimulus_witness :
    (∃ e2, RandomITModel.init.start_task (BrainModel.Task.other "fixation") = .error e2) ∧
    (demoBenchmark.call alwaysFailingCandidate ()).1 = .error "UnsupportedTaskError" ∧
    Event.lookAtEv ∉ (demoBenchmark.call alwaysFailingCandidate ()).2.2 :=
  c2_error_before_stimulus RandomITModel.init (BrainModel.Task.other "fixation")
    (by decide) Unit alwaysFailingCandidate () demoBenchmark
    "UnsupportedTaskError" rfl

/-- C9: the reference assembly is stored once at construction and never
mutated by scoring: `MyBenchmark.__call__` returns the benchmark state
unchanged — in particular `self._assembly`, including its attached
stimulus set, is exactly what `__init__` stored. -/
theorem c9_call_preserves_assembly {σ : Type} (b : MyBenchmark)
    (c : Candidate σ) (s : σ) (a : NeuralAssembly) :
    (MyBenchmark.mk' a).assembly = a ∧
    (b.call c s).2.1 = b ∧
    (b.call c s).2.1.assembly = b.assembly ∧
    (b.call c s).2.1.assembly.stimulus_set = b.assembly.stimulus_set := by
  have hb : (b.call c s).2.1 = b := by
    unfold MyBenchmark.call
    cases c.start_task s BrainModel.Task.passive with
    | error e => rfl
    | ok s1 =>
      dsimp only
      cases c.start_recording s1 "IT" [((100 : Int), (120 : Int))] with
      | error e => rfl
      | ok s2 => rfl
  exact ⟨rfl, hb, by rw [hb], by rw [hb]⟩

/-- Witness for C9: the demo benchmark called on a fresh `RandomITModel`
keeps its assembly and attached stimulus set. -/
theorem c9_call_preserves_assembly_witness :
    (MyBenchmark.mk' demoAssembly).assembly = demoAssembly ∧
    (demoBenchmark.call RandomITModel.candidate RandomITModel.init).2.1 =
      demoBenchmark ∧
    (demoBenchmark.call RandomITModel.candidate RandomITModel.init).2.1.assembly =
      demoBenchmark.assembly ∧
    (demoBenchmark.call RandomITModel.candidate
        RandomITModel.init).2.1.assembly.stimulus_set =
      demoBenchmark.assembly.stimulus_set :=
  c9_call_preserves_assembly demoBenchmark RandomITModel.candidate
    RandomITModel.init demoAssembly

/-- Repeated `ceiling` accesses leave the instance unchanged and invoke
the estimator once per access. -/
theorem ceilingAccessRepeat_eq (b : MyBenchmark) (k : Nat) :
    MyBenchmark.ceilingAccessRepeat b k = (b, k) := by
  induction k with
  | zero => rfl
  | succ n ih =>
      simp [MyBenchmark.ceilingAccessRepeat, MyBenchmark.ceilingAccess, ih,
        Nat.add_comm]

/-- Counterexample to C3 as stated: two accesses of the `ceiling`
property on the same concrete benchmark instance invoke the ceiling
estimator twice, not at most once — the property body recomputes
`self._ceiler(self._assembly)` on every access. -/
theorem c3_counterexample_two_accesses_two_invocations :
    (MyBenchmark.ceilingAccessRepeat demoBenchmark 2).2 = 2 ∧
    ¬ ((MyBenchmark.ceilingAccessRepeat demoBenchmark 2).2 ≤ 1) := by
  rw [ceilingAccessRepeat_eq]
  exact ⟨rfl, by decide⟩

/-- C3 (amended): the ceiling is computed lazily — only when the
`ceiling` property is accessed — but it is not memoized: each access
invokes the ceiling estimator anew on the stored assembly (`k` accesses
make `k` estimator invocations), returning the estimator's value and
leaving the instance unchanged. -/
theorem c3_ceiling_lazy_not_memoized (b : MyBenchmark) (k : Nat) :
    (MyBenchmark.ceilingAccessRepeat b k).2 = k ∧
    (MyBenchmark.ceilingAccessRepeat b k).1 = b ∧
    b.ceilingAccess.1 = InternalConsistency b.assembly ∧
    b.ceilingAccess.2.1 = b :=
  ⟨by rw [ceilingAccessRepeat_eq], by rw [ceilingAccessRepeat_eq], rfl, rfl⟩

/-- Witness for C3 (amended) at three concrete accesses on the demo
benchmark. -/
theorem c3_ceiling_lazy_not_memoized_witness :
    (MyBenchmark.ceilingAccessRepeat demoBenchmark 3).2 = 3 ∧
    (MyBenchmark.ceilingAccessRepeat demoBenchmark 3).1 = demoBenchmark ∧
    demoBenchmark.ceilingAccess.1 = InternalConsistency demoBenchmark.assembly ∧
    demoBenchmark.ceilingAccess.2.1 = demoBenchmark :=
  c3_ceiling_lazy_not_memoized demoBenchmark 3

/-- C5: for a fixed seed and split configuration, the similarity metric
is deterministic — identical prediction and reference assemblies yield
identical center and error — and every returned Score's center and error
are the fixed aggregation functions (mean, squared standard error) of its
raw per-split per-channel values. -/
theorem c5_metric_deterministic (splits seed : Nat)
    (p1 r1 p2 r2 : NeuralAssembly) (hp : p1 = p2) (hr : r1 = r2) :
    (CrossRegressedCorrelation splits seed p1 r1).center =
      (CrossRegressedCorrelation splits seed p2 r2).center ∧
    (CrossRegressedCorrelation splits seed p1 r1).error =
      (CrossRegressedCorrelation splits seed p2 r2).error ∧
    (CrossRegressedCorrelation splits seed p1 r1).center =
      mean (CrossRegressedCorrelation splits seed p1 r1).rawValues.flatten ∧
    (CrossRegressedCorrelation splits seed p1 r1).error =
      sqSem (CrossRegressedCorrelation splits seed p1 r1).rawValues.flatten := by
  subst hp; subst hr
  exact ⟨rfl, rfl, rfl, rfl⟩

/-- Witness for C5 at a concrete invocation: scoring `demoAssembly`
against itself twice (splits = 3, seed 0) agrees in center and error, and
both aggregate the raw matrix. -/
theorem c5_metric_deterministic_witness :
    (CrossRegressedCorrelation 3 0 demoAssembly demoAssembly).center =
      (CrossRegressedCorrelation 3 0 demoAssembly demoAssembly).center ∧
    (CrossRegressedCorrelation 3 0 demoAssembly demoAssembly).error =
      (CrossRegressedCorrelation 3 0 demoAssembly demoAssembly).error ∧
    (CrossRegressedCorrelation 3 0 demoAssembly demoAssembly).center =
      mean (CrossRegressedCorrelation 3 0 demoAssembly demoAssembly).rawValues.flatten ∧
    (CrossRegressedCorrelation 3 0 demoAssembly demoAssembly).error =
      sqSem (CrossRegressedCorrelation 3 0 demoAssembly demoAssembly).rawValues.flatten :=
  c5_metric_deterministic 3 0 demoAssembly demoAssembly demoAssembly demoAssembly
    rfl rfl

/-- C6: normalizing a raw score equal to the ceiling by that ceiling
yields a normalized score whose center is 1 (whenever the ceiling center
is nonzero, so that the division is meaningful). -/
theorem c6_explained_variance_of_ceiling_is_one (s : Score)
    (h : s.center ≠ 0) :
    (explained_variance s s).center = 1 := by
  show s.center / s.center = 1
  exact div_self h

/-- Witness for C6 at the concrete `demoScore` (center 1/2). -/
theorem c6_explained_variance_of_ceiling_is_one_witness :
    demoScore.center ≠ 0 ∧ (explained_variance demoScore demoScore).center = 1 :=
  ⟨by norm_num [demoScore, Score.center],
   c6_explained_variance_of_ceiling_is_one demoScore
     (by norm_num [demoScore, Score.center])⟩

/-- Repetition rows of stimulus `"A"` in `c7BaseA`. -/
theorem c7BaseA_rowsA : NeuralAssembly.rowsForImage c7BaseA "A" = [[1, 1], [1, 1]] := by
  simp [NeuralAssembly.rowsForImage, c7BaseA]

/-- Repetition rows of stimulus `"B"` in `c7BaseA`. -/
theorem c7BaseA_rowsB : NeuralAssembly.rowsForImage c7BaseA "B" = [[0, 0], [0, 0]] := by
  simp [NeuralAssembly.rowsForImage, c7BaseA]

/-- Distinct stimuli of `c7BaseA`. -/
theorem c7BaseA_dedup : dedup c7BaseA.image_id = ["A", "B"] := by
  simp [dedup, c7BaseA]

/-- Channel count of `c7BaseA`. -/
theorem c7BaseA_channels : c7BaseA.numChannels = 2 := by
  simp [NeuralAssembly.numChannels, c7BaseA]

/-- Half-mean traces of `c7BaseA`, channel 0. -/
theorem c7BaseA_hmv0 : halfMeanVec c7BaseA 0 true = [1, 0] ∧
    halfMeanVec c7BaseA 0 false = [1, 0] := by
  constructor <;> simp [halfMeanVec, c7BaseA_dedup, c7BaseA_rowsA, c7BaseA_rowsB, mean]

/-- Half-mean traces of `c7BaseA`, channel 1. -/
theorem c7BaseA_hmv1 : halfMeanVec c7BaseA 1 true = [1, 0] ∧
    halfMeanVec c7BaseA 1 false = [1, 0] := by
  constructor <;> simp [halfMeanVec, c7BaseA_dedup, c7BaseA_rowsA, c7BaseA_rowsB, mean]

/-- Ceiling error of `c7BaseA`: the two neuroid consistencies agree, so
the spread is 0. -/
theorem c7BaseA_error : (InternalConsistency c7BaseA).error = 0 := by
  simp only [InternalConsistency, Score.error, c7BaseA_channels, List.range_succ,
    List.range_zero, List.nil_append, List.map_append, List.map_cons, List.map_nil,
    List.cons_append, c7BaseA_hmv0.1, c7BaseA_hmv0.2, c7BaseA_hmv1.1, c7BaseA_hmv1.2]
  norm_num [covariance, mean, sqSem, List.zipWith]

/-- Repetition rows of stimulus `"A"` in `c7MoreA`. -/
theorem c7MoreA_rowsA : NeuralAssembly.rowsForImage c7MoreA "A" = [[1, 1], [1, 1]] := by
  simp [NeuralAssembly.rowsForImage, c7MoreA, c7BaseA, NeuralAssembly.addRepetition]

/-- Repetition rows of stimulus `"B"` in `c7MoreA`. -/
theorem c7MoreA_rowsB :
    NeuralAssembly.rowsForImage c7MoreA "B" = [[0, 0], [0, 0], [4, 0]] := by
  simp [NeuralAssembly.rowsForImage, c7MoreA, c7BaseA, NeuralAssembly.addRepetition]

/-- Distinct stimuli of `c7MoreA`. -/
theorem c7MoreA_dedup : dedup c7MoreA.image_id = ["A", "B"] := by
  simp [dedup, c7MoreA, c7BaseA, NeuralAssembly.addRepetition]

/-- Channel count of `c7MoreA`. -/
theorem c7MoreA_channels : c7MoreA.numChannels = 2 := by
  simp [NeuralAssembly.numChannels, c7MoreA, c7BaseA, NeuralAssembly.addRepetition]

/-- Half-mean traces of `c7MoreA`, channel 0. -/
theorem c7MoreA_hmv0 : halfMeanVec c7MoreA 0 true = [1, 0] ∧
    halfMeanVec c7MoreA 0 false = [1, 2] := by
  refine ⟨by simp [halfMeanVec, c7MoreA_dedup, c7MoreA_rowsA, c7MoreA_rowsB, mean], ?_⟩
  simp [halfMeanVec, c7MoreA_dedup, c7MoreA_rowsA, c7MoreA_rowsB, mean]
  norm_num

/-- Half-mean traces of `c7MoreA`, channel 1. -/
theorem c7MoreA_hmv1 : halfMeanVec c7MoreA 1 true = [1, 0] ∧
    halfMeanVec c7MoreA 1 false = [1, 0] := by
  constructor <;> simp [halfMeanVec, c7MoreA_dedup, c7MoreA_rowsA, c7MoreA_rowsB, mean]

/-- Ceiling error of `c7MoreA`: the outlier repetition pulls the two
neuroid consistencies apart, giving a positive spread. -/
theorem c7MoreA_error : (InternalConsistency c7MoreA).error = 1 / 32 := by
  simp only [InternalConsistency, Score.error, c7MoreA_channels, List.range_succ,
    List.range_zero, List.nil_append, List.map_append, List.map_cons, List.map_nil,
    List.cons_append, c7MoreA_hmv0.1, c7MoreA_hmv0.2, c7MoreA_hmv1.1, c7MoreA_hmv1.2]
  norm_num [covariance, mean, sqSem, List.zipWith]

/-- Repetition rows of stimulus `"A"` in `c7BaseB`. -/
theorem c7BaseB_rowsA : NeuralAssembly.rowsForImage c7BaseB "A" = [[1, 1], [1, 1]] := by
  simp [NeuralAssembly.rowsForImage, c7BaseB]

/-- Repetition rows of stimulus `"B"` in `c7BaseB`. -/
theorem c7BaseB_rowsB : NeuralAssembly.rowsForImage c7BaseB "B" = [[0, 0], [4, 0]] := by
  simp [NeuralAssembly.rowsForImage, c7BaseB]

/-- Distinct stimuli of `c7BaseB`. -/
theorem c7BaseB_dedup : dedup c7BaseB.image_id = ["A", "B"] := by
  simp [dedup, c7BaseB]

/-- Channel count of `c7BaseB`. -/
theorem c7BaseB_channels : c7BaseB.numChannels = 2 := by
  simp [NeuralAssembly.numChannels, c7BaseB]

/-- Half-mean traces of `c7BaseB`, channel 0. -/
theorem c7BaseB_hmv0 : halfMeanVec c7BaseB 0 true = [1, 0] ∧
    halfMeanVec c7BaseB 0 false = [1, 4] := by
  constructor <;> simp [halfMeanVec, c7BaseB_dedup, c7BaseB_rowsA, c7BaseB_rowsB, mean]

/-- Half-mean traces of `c7BaseB`, channel 1. -/
theorem c7BaseB_hmv1 : halfMeanVec c7BaseB 1 true = [1, 0] ∧
    halfMeanVec c7BaseB 1 false = [1, 0] := by
  constructor <;> simp [halfMeanVec, c7BaseB_dedup, c7BaseB_rowsA, c7BaseB_rowsB, mean]

/-- Ceiling error of `c7BaseB`. -/
theorem c7BaseB_error : (InternalConsistency c7BaseB).error = 1 / 8 := by
  simp only [InternalConsistency, Score.error, c7BaseB_channels, List.range_succ,
    List.range_zero, List.nil_append, List.map_append, List.map_cons, List.map_nil,
    List.cons_append, c7BaseB_hmv0.1, c7BaseB_hmv0.2, c7BaseB_hmv1.1, c7BaseB_hmv1.2]
  norm_num [covariance, mean, sqSem, List.zipWith]

/-- Repetition rows of stimulus `"A"` in `c7MoreB`. -/
theorem c7MoreB_rowsA : NeuralAssembly.rowsForImage c7MoreB "A" = [[1, 1], [1, 1]] := by
  simp [NeuralAssembly.rowsForImage, c7MoreB, c7BaseB, NeuralAssembly.addRepetition]

/-- Repetition rows of stimulus `"B"` in `c7MoreB`. -/
theorem c7MoreB_rowsB :
    NeuralAssembly.rowsForImage c7MoreB "B" = [[0, 0], [4, 0], [0, 0]] := by
  simp [NeuralAssembly.rowsForImage, c7MoreB, c7BaseB, NeuralAssembly.addRepetition]

/-- Distinct stimuli of `c7MoreB`. -/
theorem c7MoreB_dedup : dedup c7MoreB.image_id = ["A", "B"] := by
  simp [dedup, c7MoreB, c7BaseB, NeuralAssembly.addRepetition]

/-- Channel count of `c7MoreB`. -/
theorem c7MoreB_channels : c7MoreB.numChannels = 2 := by
  simp [NeuralAssembly.numChannels, c7MoreB, c7BaseB, NeuralAssembly.addRepetition]

/-- Half-mean traces of `c7MoreB`, channel 0. -/
theorem c7MoreB_hmv0 : halfMeanVec c7MoreB 0 true = [1, 0] ∧
    halfMeanVec c7MoreB 0 false = [1, 2] := by
  refine ⟨by simp [halfMeanVec, c7MoreB_dedup, c7MoreB_rowsA, c7MoreB_rowsB, mean], ?_⟩
  simp [halfMeanVec, c7MoreB_dedup, c7MoreB_rowsA, c7MoreB_rowsB, mean]
  norm_num

/-- Half-mean traces of `c7MoreB`, channel 1. -/
theorem c7MoreB_hmv1 : halfMeanVec c7MoreB 1 true = [1, 0] ∧
    halfMeanVec c7MoreB 1 false = [1, 0] := by
  constructor <;> simp [halfMeanVec, c7MoreB_dedup, c7MoreB_rowsA, c7MoreB_rowsB, mean]

/-- Ceiling error of `c7MoreB`. -/
theorem c7MoreB_error : (InternalConsistency c7MoreB).error = 1 / 32 := by
  simp only [InternalConsistency, Score.error, c7MoreB_channels, List.range_succ,
    List.range_zero, List.nil_append, List.map_append, List.map_cons, List.map_nil,
    List.cons_append, c7MoreB_hmv0.1, c7MoreB_hmv0.2, c7MoreB_hmv1.1, c7MoreB_hmv1.2]
  norm_num [covariance, mean, sqSem, List.zipWith]

/-- Counterexample to C7 as stated: on the concrete assembly `c7BaseA`
(two stimuli, two repetitions each, two neuroids, ceiling error 0),
appending one more repetition of stimulus `"B"` strictly increases the
ceiling score's error — adding repetitions can increase the error. -/
theorem c7_counterexample_added_repetition_increases_error :
    (InternalConsistency c7BaseA).error <
      (InternalConsistency (c7BaseA.addRepetition "B" "y" [4, 0])).error := by
  have h : c7MoreA = c7BaseA.addRepetition "B" "y" [4, 0] := rfl
  rw [← h, c7BaseA_error, c7MoreA_error]
  norm_num

/-- C7 (amended): the ceiling score's error is not monotone in the
assembly's repetition count — adding a repetition can strictly decrease
the error (as on `c7BaseB`) but can also strictly increase it (as on
`c7BaseA`); the error depends on the added measurements' values, not on
the repetition count alone. -/
theorem c7_ceiling_error_not_monotone_in_repetitions :
    (InternalConsistency (c7BaseB.addRepetition "B" "y" [0, 0])).error <
      (InternalConsistency c7BaseB).error ∧
    (InternalConsistency c7BaseA).error <
      (InternalConsistency (c7BaseA.addRepetition "B" "y" [4, 0])).error := by
  have hA : c7MoreA = c7BaseA.addRepetition "B" "y" [4, 0] := rfl
  have hB : c7MoreB = c7BaseB.addRepetition "B" "y" [0, 0] := rfl
  rw [← hA, ← hB, c7BaseA_error, c7MoreA_error, c7BaseB_error, c7MoreB_error]
  norm_num
